import Mathlib

/-!
# Verification of the StockOverview rate-limited data-fetch client

Shallow embedding of `src/modules/data_fetcher.py` (class `DataFetcher`).
Times, delays and monetary amounts are modelled as rationals; the
per-credential dictionaries (`api_key_timers`, `api_key_daily_counts`,
`api_key_reset_dates`) are modelled as total maps keyed by the credential
hash, with the Python `dict.get(k, default)` defaults built into the map.

The retry loop of `_rate_limited_request` is embedded as a classification
of each HTTP attempt (`classifyAttempt`, the body of the `for attempt in
range(max_retries)` loop together with its exception handlers) driven by a
fuel-indexed loop (`runLoopAux`).  The upstream transport is a script
assigning to every attempt index the response that attempt would observe.
-/

/-- Configuration read from the environment in `DataFetcher.__init__`:
`FMP_RATE_LIMIT_PER_MINUTE` (default 5), `FMP_RATE_LIMIT_PER_DAY`
(default 250), `FMP_RETRY_DELAY` (default 60 seconds). -/
structure Config where
  rate_limit_per_minute : ℚ
  rate_limit_per_day : Nat
  retry_delay : ℚ

/-- One upstream observation for one HTTP attempt: either a response with a
status code and a parsed body, or a transport-level failure
(`httpx.ConnectError` / `httpx.TimeoutException`). -/
inductive UpstreamResponse (α : Type) where
  | http (code : Nat) (body : α)
  | connectError
  | timeout

/-- The typed failure taxonomy.  Each constructor corresponds to one
distinct exception message raised by `_rate_limited_request`:
`DailyQuotaExceeded` ↔ "Daily rate limit exceeded …" (line 54),
`RateLimitExceeded` ↔ "Rate limit exceeded after all retries" (line 84),
`UpstreamUnavailable502` ↔ the 502 message (line 95),
`UpstreamUnavailable503` ↔ the 503 message (line 105),
`InvalidCredential` ↔ "Invalid API key …" (line 127),
`PermissionDenied` ↔ the 403 message (line 129),
`ResourceNotFound` ↔ the 404 message (line 131),
`UpstreamInternalError` ↔ "… internal error …" (line 133),
`OtherHttp` ↔ the generic message (line 135),
`NetworkConnectError` / `NetworkTimeout` ↔ lines 144 / 153. -/
inductive FetchError where
  | DailyQuotaExceeded
  | RateLimitExceeded
  | UpstreamUnavailable502
  | UpstreamUnavailable503
  | InvalidCredential
  | PermissionDenied
  | ResourceNotFound
  | UpstreamInternalError
  | OtherHttp (code : Nat)
  | NetworkConnectError
  | NetworkTimeout
  deriving DecidableEq

/-- Outcome of one iteration of the retry loop: return a body, sleep
`wait` seconds and `continue`, or raise a terminal error. -/
inductive AttemptOutcome (α : Type) where
  | success (body : α)
  | retry (wait : ℚ)
  | fail (e : FetchError)

/-- The `else` branch of the `except httpx.HTTPStatusError` handler
(lines 124-135): map a status code that is neither retried nor 2xx to its
typed terminal error. -/
def classifyTerminal (code : Nat) : FetchError :=
  if code = 401 then .InvalidCredential
  else if code = 403 then .PermissionDenied
  else if code = 404 then .ResourceNotFound
  else if code = 500 then .UpstreamInternalError
  else .OtherHttp code

/-- Body of one iteration of `for attempt in range(max_retries)` in
`_rate_limited_request` (lines 67-161).  In the source, 429/502/503 are
handled before `raise_for_status()`; `raise_for_status()` raises for every
non-2xx status, and the `except httpx.HTTPStatusError` handler either
retries (429/502/503, unreachable there) or raises a terminal error, which
propagates out of the whole loop because it is raised inside an `except`
clause.  `ConnectError`/`Timeout` retry with `5*(attempt+1)` backoff. -/
def classifyAttempt (cfg : Config) (maxRetries attempt : Nat)
    (r : UpstreamResponse α) : AttemptOutcome α :=
  match r with
  | .connectError =>
      if attempt + 1 < maxRetries then .retry (5 * ((attempt : ℚ) + 1))
      else .fail .NetworkConnectError
  | .timeout =>
      if attempt + 1 < maxRetries then .retry (5 * ((attempt : ℚ) + 1))
      else .fail .NetworkTimeout
  | .http code body =>
      if code = 429 then
        if attempt + 1 < maxRetries then .retry (cfg.retry_delay * ((attempt : ℚ) + 1))
        else .fail .RateLimitExceeded
      else if code = 502 then
        if attempt + 1 < maxRetries then .retry (10 * ((attempt : ℚ) + 1))
        else .fail .UpstreamUnavailable502
      else if code = 503 then
        if attempt + 1 < maxRetries then .retry (15 * ((attempt : ℚ) + 1))
        else .fail .UpstreamUnavailable503
      else if 200 ≤ code ∧ code < 300 then .success body
      else .fail (classifyTerminal code)

/-- Result of the whole retry loop: the returned body or the raised error,
together with the list of backoff sleeps performed (in order) and the
number of HTTP attempts issued.  `fellThrough` is the implicit `return
None` reached only when `max_retries = 0`. -/
inductive RunResult (α : Type) where
  | ok (body : α) (waits : List ℚ) (attempts : Nat)
  | err (e : FetchError) (waits : List ℚ) (attempts : Nat)
  | fellThrough (waits : List ℚ)
  deriving DecidableEq

def RunResult.waits : RunResult α → List ℚ
  | .ok _ ws _ => ws
  | .err _ ws _ => ws
  | .fellThrough ws => ws

def RunResult.attempts : RunResult α → Nat
  | .ok _ _ n => n
  | .err _ _ n => n
  | .fellThrough ws => ws.length

def RunResult.isOk : RunResult α → Bool
  | .ok _ _ _ => true
  | _ => false

/-- The retry loop, driven by fuel (`fuel = maxRetries - attempt` at every
call; started with `fuel = maxRetries`, `attempt = 0`). -/
def runLoopAux (cfg : Config) (maxRetries : Nat)
    (script : Nat → UpstreamResponse α) : Nat → Nat → RunResult α
  | 0, _ => .fellThrough []
  | fuel + 1, attempt =>
    match classifyAttempt cfg maxRetries attempt (script attempt) with
    | .success b => .ok b [] (attempt + 1)
    | .fail e => .err e [] (attempt + 1)
    | .retry w =>
      match runLoopAux cfg maxRetries script fuel (attempt + 1) with
      | .ok b ws n => .ok b (w :: ws) n
      | .err e ws n => .err e (w :: ws) n
      | .fellThrough ws => .fellThrough (w :: ws)

/-- The whole `for attempt in range(max_retries)` loop. -/
def runLoop (cfg : Config) (maxRetries : Nat)
    (script : Nat → UpstreamResponse α) : RunResult α :=
  runLoopAux cfg maxRetries script maxRetries 0

/-- The per-credential bookkeeping of `DataFetcher`, keyed by the
credential hash.  `api_key_timers` and `api_key_daily_counts` fold the
`dict.get(key, 0)` defaults into total maps; `api_key_reset_dates` keeps
`Option` so that "key not present" is distinguishable, as the reset check
needs it. -/
structure FetchState where
  api_key_timers : String → ℚ
  api_key_daily_counts : String → Nat
  api_key_reset_dates : String → Option Int

/-- `DataFetcher._reset_daily_counter_if_needed`: if the key has no reset
date recorded or the recorded date differs from today, zero the daily
count and record today's date. -/
def reset_daily_counter_if_needed (st : FetchState) (key : String) (today : Int) :
    FetchState :=
  if st.api_key_reset_dates key = some today then st
  else
    { st with
      api_key_daily_counts := Function.update st.api_key_daily_counts key 0,
      api_key_reset_dates := Function.update st.api_key_reset_dates key (some today) }

/-- Pacing (lines 57-65): the wall-clock instant at which the first HTTP
attempt is issued, given the call's start time `now`, the credential's
last recorded call time `last`, and the minimum inter-call interval. -/
def requestStartTime (now last interval : ℚ) : ℚ :=
  if now - last < interval then now + (interval - (now - last)) else now

/-- Result of one call to `_rate_limited_request`: the loop result, the
fetcher state after the call, and the instant the first HTTP attempt was
issued (`none` when the call was rejected before any network activity). -/
structure CallResult (α : Type) where
  result : RunResult α
  state : FetchState
  httpStart : Option ℚ

/-- `DataFetcher._rate_limited_request` for one credential `key` (already
hashed), on day `today`, starting at wall-clock time `now`; `endTime` is
the value `time.time()` returns at the success point (line 108).  The
daily count is read once (line 52) before the loop and the success path
writes back `daily + 1` (line 109); the timer and the count are written
only on the 2xx success path. -/
def rate_limited_request (cfg : Config) (st0 : FetchState) (key : String)
    (today : Int) (now endTime : ℚ) (maxRetries : Nat)
    (script : Nat → UpstreamResponse α) : CallResult α :=
  let st := reset_daily_counter_if_needed st0 key today
  let daily := st.api_key_daily_counts key
  if cfg.rate_limit_per_day ≤ daily then
    ⟨.err .DailyQuotaExceeded [] 0, st, none⟩
  else
    let min_interval := 60 / cfg.rate_limit_per_minute
    let start := requestStartTime now (st.api_key_timers key) min_interval
    match runLoop cfg maxRetries script with
    | .ok b ws n =>
        ⟨.ok b ws n,
         { st with
           api_key_timers := Function.update st.api_key_timers key endTime,
           api_key_daily_counts := Function.update st.api_key_daily_counts key (daily + 1) },
         some start⟩
    | .err e ws n => ⟨.err e ws n, st, some start⟩
    | .fellThrough ws => ⟨.fellThrough ws, st, some start⟩

/-- The state of a fresh `DataFetcher` (empty dictionaries; the numeric
maps carry their `get` defaults). -/
def initialState : FetchState :=
  ⟨fun _ => 0, fun _ => 0, fun _ => none⟩

/-- A transport on which every attempt receives 200 with `payload`. -/
def successScript (payload : α) : Nat → UpstreamResponse α :=
  fun _ => .http 200 payload

/-- `n` consecutive calls to `_rate_limited_request` on the same
credential and the same day, each against an all-200 transport, starting
from a fresh fetcher. -/
def iterateSuccess (cfg : Config) (key : String) (today : Int) (payload : α)
    (nowSeq endSeq : Nat → ℚ) : Nat → FetchState
  | 0 => initialState
  | n + 1 =>
    (rate_limited_request cfg (iterateSuccess cfg key today payload nowSeq endSeq n)
      key today (nowSeq n) (endSeq n) 3 (successScript payload)).state

example :
    (runLoop ⟨5, 250, 60⟩ 3 (successScript (42 : Nat))) = .ok 42 [] 1 := by
  decide

example :
    (runLoop ⟨5, 250, 60⟩ 3 (fun _ => UpstreamResponse.http 401 (0 : Nat))) =
      .err .InvalidCredential [] 1 := by
  decide

/-- Python's built-in `abs` on a number. -/
def pyAbs (x : ℚ) : ℚ := if x < 0 then -x else x

/-- A company profile as consumed by `_validate_and_fix_market_cap` and
`get_company_profile`.  Numeric fields default to `0` and `companyName`
to `""`: `profile.get(field, 0)` and Python truthiness (`not
profile.get('mktCap')`, `not profile.get('companyName')`) identify a
missing field with `0` / the empty string.  Flags default to `False`
(a missing key is falsy). -/
structure Profile where
  sharesOutstanding : ℚ := 0
  mktCap : ℚ := 0
  price : ℚ := 0
  companyName : String := ""
  shares_calculated : Bool := false
  mkt_cap_calculated : Bool := false
  price_from_quote : Bool := false
  mkt_cap_from_metrics : Bool := false
  profile_freshness : String := ""
  deriving DecidableEq

/-- Payload of `/quote/{ticker}` as used by `_validate_and_fix_market_cap`
(`quote_data.get('marketCap', 0)`, `quote_data.get('price', 0)`). -/
structure QuoteData where
  marketCap : ℚ := 0
  price : ℚ := 0
  deriving DecidableEq

/-- Payload of `/key-metrics/{ticker}` as used by the fallback
(`metrics_data.get('marketCap', 0)`). -/
structure MetricsData where
  marketCap : ℚ := 0
  deriving DecidableEq

/-- Result of `_validate_and_fix_market_cap` together with which
supplementary fetches the call issued.  `_get_real_time_quote` /
`_get_key_metrics_fallback` return `{}` on failure or empty data, so the
`quote` / `metrics` arguments model their results as `Option`s (`none` ↔
the falsy empty dict). -/
structure FixOutcome where
  profile : Profile
  quoteFetchIssued : Bool
  metricsFetchIssued : Bool
  deriving DecidableEq

/-- `DataFetcher._validate_and_fix_market_cap` (lines 206-260).  The
locals `shares_outstanding`, `reported_mkt_cap` and `price` are read once
at entry and never refreshed, so every later condition tests the entry
values even after the profile has been updated. -/
def validate_and_fix_market_cap (p : Profile) (quote : Option QuoteData)
    (metrics : Option MetricsData) : FixOutcome :=
  let shares_outstanding := p.sharesOutstanding
  let reported_mkt_cap := p.mktCap
  let price := p.price
  let p1 :=
    if shares_outstanding = 0 ∧ price > 0 ∧ reported_mkt_cap > 0 then
      { p with
        sharesOutstanding := reported_mkt_cap / price,
        shares_calculated := true }
    else if shares_outstanding > 0 ∧ price > 0 then
      let calculated_mkt_cap := price * shares_outstanding
      let discrepancy := pyAbs (reported_mkt_cap - calculated_mkt_cap)
      let discrepancy_percent :=
        if reported_mkt_cap > 0 then discrepancy / reported_mkt_cap * 100 else 0
      if discrepancy_percent > 5 then
        { p with mktCap := calculated_mkt_cap, mkt_cap_calculated := true }
      else p
    else p
  let p2 :=
    if shares_outstanding = 0 ∨ price = 0 then
      match quote with
      | some q =>
        let p2a :=
          if shares_outstanding = 0 ∧ q.marketCap > 0 ∧ q.price > 0 then
            { p1 with
              sharesOutstanding := q.marketCap / q.price,
              shares_calculated := true }
          else p1
        if price = 0 ∧ q.price > 0 then
          { p2a with price := q.price, price_from_quote := true }
        else p2a
      | none => p1
    else p1
  let p3 :=
    if shares_outstanding = 0 ∨ reported_mkt_cap = 0 then
      match metrics with
      | some m =>
        if reported_mkt_cap = 0 ∧ m.marketCap > 0 then
          { p2 with mktCap := m.marketCap, mkt_cap_from_metrics := true }
        else p2
      | none => p2
    else p2
  ⟨p3, decide (shares_outstanding = 0 ∨ price = 0),
       decide (shares_outstanding = 0 ∨ reported_mkt_cap = 0)⟩

/-- Parsed JSON body of a 2xx response, as inspected by
`if data and isinstance(data, list) and len(data) > 0`: a JSON list, or
anything else (`other` covers non-list JSON and falsy values). -/
inductive ApiData (α : Type) where
  | list (xs : List α)
  | other

/-- A key-metrics record as consumed by `get_key_metrics`'s tagging step
(`metrics[0].get('marketCap')`, `metrics[0].get('revenuePerShare')`). -/
structure Metrics where
  marketCap : ℚ := 0
  revenuePerShare : ℚ := 0
  metrics_freshness : String := ""
  deriving DecidableEq

/-- `DataFetcher.get_company_profile` (lines 184-204), past the point
where `_rate_limited_request` has returned parsed data: reconcile market
cap, then tag freshness.  `quote` / `metrics` are the results the
supplementary fetches would deliver if issued. -/
def get_company_profile (data : ApiData Profile) (quote : Option QuoteData)
    (metrics : Option MetricsData) : Profile :=
  match data with
  | .list (p :: _) =>
    let profile := (validate_and_fix_market_cap p quote metrics).profile
    if profile.mktCap = 0 ∨ profile.companyName = "" then
      { profile with profile_freshness := "fallback" }
    else
      { profile with profile_freshness := "fresh" }
  | _ => { profile_freshness := "fallback" }

/-- `DataFetcher.get_key_metrics` (lines 310-326), past the point where
`_rate_limited_request` has returned parsed data: tag the head record's
freshness, or return the one-element fallback list. -/
def get_key_metrics (data : ApiData Metrics) : List Metrics :=
  match data with
  | .list (m :: rest) =>
    if m.marketCap = 0 ∨ m.revenuePerShare = 0 then
      { m with metrics_freshness := "fallback" } :: rest
    else
      { m with metrics_freshness := "fresh" } :: rest
  | _ => [{ metrics_freshness := "fallback" }]

example :
    (validate_and_fix_market_cap
      { sharesOutstanding := 0, mktCap := 3000000000, price := 150,
        companyName := "X" } none none).profile.sharesOutstanding
      = 20000000 := by
  norm_num [validate_and_fix_market_cap, pyAbs]

example :
    (validate_and_fix_market_cap
      { sharesOutstanding := 1000000, mktCap := 150000000, price := 100,
        companyName := "X" } none none).profile.mktCap
      = 100000000 := by
  norm_num [validate_and_fix_market_cap, pyAbs]

/-! ## Helper lemmas -/

lemma reset_timers_eq (st : FetchState) (key : String) (today : Int) :
    (reset_daily_counter_if_needed st key today).api_key_timers =
      st.api_key_timers := by
  unfold reset_daily_counter_if_needed
  split <;> rfl

lemma reset_dates_eq (st : FetchState) (key : String) (today : Int) :
    (reset_daily_counter_if_needed st key today).api_key_reset_dates key =
      some today := by
  unfold reset_daily_counter_if_needed
  split
  · assumption
  · simp [Function.update_same]

lemma reset_noop {st : FetchState} {key : String} {today : Int}
    (h : st.api_key_reset_dates key = some today) :
    reset_daily_counter_if_needed st key today = st := by
  unfold reset_daily_counter_if_needed
  rw [if_pos h]

lemma runLoop_success (cfg : Config) (payload : α) :
    runLoop cfg 3 (successScript payload) = .ok payload [] 1 := by
  simp [runLoop, runLoopAux, classifyAttempt, successScript]

lemma success_call_state (cfg : Config) (st : FetchState) (key : String)
    (today : Int) (now endt : ℚ) (payload : α)
    (h : (reset_daily_counter_if_needed st key today).api_key_daily_counts key
          < cfg.rate_limit_per_day) :
    (rate_limited_request cfg st key today now endt 3 (successScript payload)).state =
      { reset_daily_counter_if_needed st key today with
        api_key_timers :=
          Function.update
            (reset_daily_counter_if_needed st key today).api_key_timers key endt,
        api_key_daily_counts :=
          Function.update
            (reset_daily_counter_if_needed st key today).api_key_daily_counts key
            ((reset_daily_counter_if_needed st key today).api_key_daily_counts key + 1) } := by
  simp only [rate_limited_request]
  rw [if_neg (Nat.not_le.mpr h), runLoop_success]

lemma iterateSuccess_spec (cfg : Config) (key : String) (today : Int)
    (payload : α) (nowSeq endSeq : Nat → ℚ) :
    ∀ n, n ≤ cfg.rate_limit_per_day →
      (iterateSuccess cfg key today payload nowSeq endSeq n).api_key_daily_counts key = n ∧
      (iterateSuccess cfg key today payload nowSeq endSeq n).api_key_reset_dates key =
        (if n = 0 then none else some today) := by
  intro n
  induction n with
  | zero => intro _; simp [iterateSuccess, initialState]
  | succ n ih =>
    intro hle
    obtain ⟨hc, hd⟩ := ih (Nat.le_of_succ_le hle)
    have hreset :
        (reset_daily_counter_if_needed
            (iterateSuccess cfg key today payload nowSeq endSeq n) key today).api_key_daily_counts key = n := by
      by_cases h0 : n = 0
      · subst h0
        simp only [if_pos rfl] at hd
        unfold reset_daily_counter_if_needed
        rw [if_neg (by simp [hd])]
        simp [Function.update_same]
      · have hsome :
            (iterateSuccess cfg key today payload nowSeq endSeq n).api_key_reset_dates key =
              some today := by
          simpa [h0] using hd
        rw [reset_noop hsome]
        exact hc
    have hlt : n < cfg.rate_limit_per_day := Nat.lt_of_lt_of_le (Nat.lt_succ_self n) hle
    have hstep := success_call_state cfg
      (iterateSuccess cfg key today payload nowSeq endSeq n) key today
      (nowSeq n) (endSeq n) payload (by rw [hreset]; exact hlt)
    constructor
    · show (iterateSuccess cfg key today payload nowSeq endSeq (n+1)).api_key_daily_counts key = n + 1
      unfold iterateSuccess
      rw [hstep]
      simp [Function.update_same, hreset]
    · show (iterateSuccess cfg key today payload nowSeq endSeq (n+1)).api_key_reset_dates key = _
      unfold iterateSuccess
      rw [hstep]
      simp [reset_dates_eq]

/-! ## Claim theorems -/

/-- C1: each successful fetch increments the credential's daily count by
exactly 1, so after `N` successful calls within one day the count equals
`N`; whenever the (reset-adjusted) daily count is at or above the daily
limit, the call fails with `DailyQuotaExceeded` with no network attempt
(`httpStart = none`, `attempts = 0`) and an unchanged state; and a call
never pushes the count above the limit. -/
theorem c1_daily_count_and_quota (cfg : Config) (key : String) (today : Int)
    {α : Type} (payload : α) (nowSeq endSeq : Nat → ℚ) :
    (∀ N, N ≤ cfg.rate_limit_per_day →
      (iterateSuccess cfg key today payload nowSeq endSeq N).api_key_daily_counts key = N) ∧
    (∀ (st : FetchState) (now endt : ℚ) (mr : Nat) (script : Nat → UpstreamResponse α),
      cfg.rate_limit_per_day ≤
          (reset_daily_counter_if_needed st key today).api_key_daily_counts key →
      rate_limited_request cfg st key today now endt mr script =
        ⟨.err .DailyQuotaExceeded [] 0, reset_daily_counter_if_needed st key today, none⟩) ∧
    (∀ (st : FetchState) (now endt : ℚ) (mr : Nat) (script : Nat → UpstreamResponse α),
      (reset_daily_counter_if_needed st key today).api_key_daily_counts key ≤
          cfg.rate_limit_per_day →
      (rate_limited_request cfg st key today now endt mr script).state.api_key_daily_counts key ≤
        cfg.rate_limit_per_day) := by
  refine ⟨fun N hN => (iterateSuccess_spec cfg key today payload nowSeq endSeq N hN).1,
    fun st now endt mr script h => ?_, fun st now endt mr script h => ?_⟩
  · simp only [rate_limited_request]
    rw [if_pos h]
  · simp only [rate_limited_request]
    by_cases hq : cfg.rate_limit_per_day ≤
        (reset_daily_counter_if_needed st key today).api_key_daily_counts key
    · rw [if_pos hq]; exact h
    · rw [if_neg hq]
      rcases hrun : runLoop cfg mr script with ⟨b, ws, n⟩ | ⟨e, ws, n⟩ | ⟨ws⟩
      · dsimp only
        rw [Function.update_same]
        omega
      · exact h
      · exact h

/-- Witness for C1: with a daily limit of 2, two successful calls leave the
count at 2; a third call on a state already at the limit is rejected with
`DailyQuotaExceeded`, no network attempt, unchanged state, and the count
stays at the limit. -/
theorem c1_daily_count_and_quota_witness :
    (iterateSuccess ⟨5, 2, 60⟩ "k" 0 (0 : Nat) (fun _ => 0) (fun _ => 0) 2).api_key_daily_counts "k" = 2 ∧
    rate_limited_request ⟨5, 2, 60⟩ ⟨fun _ => 0, fun _ => 2, fun _ => some 0⟩ "k" 0 0 0 3
        (successScript (0 : Nat)) =
      ⟨.err .DailyQuotaExceeded [] 0,
       reset_daily_counter_if_needed ⟨fun _ => 0, fun _ => 2, fun _ => some 0⟩ "k" 0, none⟩ ∧
    (rate_limited_request ⟨5, 2, 60⟩ ⟨fun _ => 0, fun _ => 2, fun _ => some 0⟩ "k" 0 0 0 3
        (successScript (0 : Nat))).state.api_key_daily_counts "k" ≤ 2 :=
  ⟨(c1_daily_count_and_quota ⟨5, 2, 60⟩ "k" 0 (0 : Nat) (fun _ => 0) (fun _ => 0)).1 2
      (by decide),
   (c1_daily_count_and_quota ⟨5, 2, 60⟩ "k" 0 (0 : Nat) (fun _ => 0) (fun _ => 0)).2.1
      ⟨fun _ => 0, fun _ => 2, fun _ => some 0⟩ 0 0 3 (successScript 0) (by decide),
   (c1_daily_count_and_quota ⟨5, 2, 60⟩ "k" 0 (0 : Nat) (fun _ => 0) (fun _ => 0)).2.2
      ⟨fun _ => 0, fun _ => 2, fun _ => some 0⟩ 0 0 3 (successScript 0) (by decide)⟩

lemma runLoop_429_twice (cfg : Config) (payload junk : α) :
    runLoop cfg 3
        (fun n => if n < 2 then .http 429 junk else .http 200 payload) =
      .ok payload [cfg.retry_delay * 1, cfg.retry_delay * 2] 3 := by
  norm_num [runLoop, runLoopAux, classifyAttempt]

lemma runLoop_429_always (cfg : Config) (junk : α) :
    runLoop cfg 3 (fun _ => .http 429 junk) =
      .err .RateLimitExceeded [cfg.retry_delay * 1, cfg.retry_delay * 2] 3 := by
  norm_num [runLoop, runLoopAux, classifyAttempt]

/-- C2: against an upstream answering 429 on the first two attempts and
200 on the third, the fetch sleeps `retry_delay*1` then `retry_delay*2`
(exactly two retries), succeeds on the 3rd attempt with the parsed
payload, and the total backoff wait equals `retry_delay*1 +
retry_delay*2`; against an upstream answering 429 on every attempt it
fails with `RateLimitExceeded` after `max_retries = 3` attempts. -/
theorem c2_retry_backoff_429 (cfg : Config) {α : Type} (st : FetchState)
    (key : String) (today : Int) (now endt : ℚ) (payload junk : α)
    (hq : (reset_daily_counter_if_needed st key today).api_key_daily_counts key
          < cfg.rate_limit_per_day) :
    (rate_limited_request cfg st key today now endt 3
        (fun n => if n < 2 then .http 429 junk else .http 200 payload)).result =
      .ok payload [cfg.retry_delay * 1, cfg.retry_delay * 2] 3 ∧
    ((rate_limited_request cfg st key today now endt 3
        (fun n => if n < 2 then .http 429 junk else .http 200 payload)).result).waits.sum =
      cfg.retry_delay * 1 + cfg.retry_delay * 2 ∧
    (rate_limited_request cfg st key today now endt 3
        (fun _ => .http 429 junk)).result =
      .err .RateLimitExceeded [cfg.retry_delay * 1, cfg.retry_delay * 2] 3 := by
  refine ⟨?_, ?_, ?_⟩ <;> simp only [rate_limited_request] <;>
    rw [if_neg (Nat.not_le.mpr hq)]
  · rw [runLoop_429_twice]
  · rw [runLoop_429_twice]
    simp [RunResult.waits]
  · rw [runLoop_429_always]

/-- Witness for C2 at a concrete configuration and fresh state. -/
theorem c2_retry_backoff_429_witness :
    (rate_limited_request ⟨5, 250, 60⟩ initialState "k" 0 0 0 3
        (fun n => if n < 2 then .http 429 (1 : Nat) else .http 200 7)).result =
      .ok 7 [(60 : ℚ) * 1, 60 * 2] 3 ∧
    ((rate_limited_request ⟨5, 250, 60⟩ initialState "k" 0 0 0 3
        (fun n => if n < 2 then .http 429 (1 : Nat) else .http 200 7)).result).waits.sum =
      (60 : ℚ) * 1 + 60 * 2 ∧
    (rate_limited_request ⟨5, 250, 60⟩ initialState "k" 0 0 0 3
        (fun _ => .http 429 (1 : Nat))).result =
      .err .RateLimitExceeded [(60 : ℚ) * 1, 60 * 2] 3 :=
  c2_retry_backoff_429 ⟨5, 250, 60⟩ initialState "k" 0 0 0 7 1 (by decide)

lemma runLoop_terminal (cfg : Config) {mr : Nat}
    (script : Nat → UpstreamResponse α) (code : Nat) (b : α)
    (hmr : 1 ≤ mr) (hs : script 0 = .http code b)
    (h429 : code ≠ 429) (h502 : code ≠ 502) (h503 : code ≠ 503)
    (h2xx : ¬(200 ≤ code ∧ code < 300)) :
    runLoop cfg mr script = .err (classifyTerminal code) [] 1 := by
  obtain ⟨m, rfl⟩ : ∃ m, mr = m + 1 := ⟨mr - 1, by omega⟩
  simp [runLoop, runLoopAux, classifyAttempt, hs, h429, h502, h503, h2xx]

/-- C3: a fetch whose first HTTP response has status 401 fails with
`InvalidCredential` immediately: one single network attempt, an empty
list of backoff waits, no retry. -/
theorem c3_invalid_credential_immediate (cfg : Config) {α : Type}
    (st : FetchState) (key : String) (today : Int) (now endt : ℚ) (mr : Nat)
    (script : Nat → UpstreamResponse α) (b : α)
    (hq : (reset_daily_counter_if_needed st key today).api_key_daily_counts key
          < cfg.rate_limit_per_day)
    (hmr : 1 ≤ mr) (hs : script 0 = .http 401 b) :
    (rate_limited_request cfg st key today now endt mr script).result =
      .err .InvalidCredential [] 1 := by
  simp only [rate_limited_request]
  rw [if_neg (Nat.not_le.mpr hq),
    runLoop_terminal cfg script 401 b hmr hs (by decide) (by decide) (by decide) (by decide)]
  rfl

/-- Witness for C3 at a concrete configuration and fresh state. -/
theorem c3_invalid_credential_immediate_witness :
    (rate_limited_request ⟨5, 250, 60⟩ initialState "k" 0 0 0 3
        (fun _ => UpstreamResponse.http 401 (0 : Nat))).result =
      .err .InvalidCredential [] 1 :=
  c3_invalid_credential_immediate ⟨5, 250, 60⟩ initialState "k" 0 0 0 3
    (fun _ => UpstreamResponse.http 401 (0 : Nat)) 0 (by decide) (by decide) rfl

/-- Counterexample for C4 as stated: on a 500 response the client does
NOT perform a retry pass.  At this concrete input the fetch fails on the
very first attempt (`attempts = 1`) with no backoff wait at all
(`waits = []`): the `except httpx.HTTPStatusError` handler re-raises 500
terminally (line 133). -/
theorem c4_counterexample_500_no_retry :
    (rate_limited_request ⟨5, 250, 60⟩ initialState "k" 0 0 0 3
        (fun _ => UpstreamResponse.http 500 (0 : Nat))).result =
      .err .UpstreamInternalError [] 1 ∧
    ((rate_limited_request ⟨5, 250, 60⟩ initialState "k" 0 0 0 3
        (fun _ => UpstreamResponse.http 500 (0 : Nat))).result).attempts = 1 ∧
    ((rate_limited_request ⟨5, 250, 60⟩ initialState "k" 0 0 0 3
        (fun _ => UpstreamResponse.http 500 (0 : Nat))).result).waits = [] := by
  refine ⟨by decide, by decide, by decide⟩

/-- C4 (amended): a fetch whose first HTTP response has status 500 fails
immediately with `UpstreamInternalError`: one single network attempt, no
backoff wait, no retry pass. -/
theorem c4_500_terminal (cfg : Config) {α : Type} (st : FetchState)
    (key : String) (today : Int) (now endt : ℚ) (mr : Nat)
    (script : Nat → UpstreamResponse α) (b : α)
    (hq : (reset_daily_counter_if_needed st key today).api_key_daily_counts key
          < cfg.rate_limit_per_day)
    (hmr : 1 ≤ mr) (hs : script 0 = .http 500 b) :
    (rate_limited_request cfg st key today now endt mr script).result =
      .err .UpstreamInternalError [] 1 := by
  simp only [rate_limited_request]
  rw [if_neg (Nat.not_le.mpr hq),
    runLoop_terminal cfg script 500 b hmr hs (by decide) (by decide) (by decide) (by decide)]
  rfl

/-- Witness for the amended C4 at a concrete input. -/
theorem c4_500_terminal_witness :
    (rate_limited_request ⟨5, 250, 60⟩ initialState "key2" 0 0 0 3
        (fun _ => UpstreamResponse.http 500 (0 : Nat))).result =
      .err .UpstreamInternalError [] 1 :=
  c4_500_terminal ⟨5, 250, 60⟩ initialState "key2" 0 0 0 3
    (fun _ => UpstreamResponse.http 500 (0 : Nat)) 0 (by decide) (by decide) rfl

lemma requestStartTime_ge (now last interval : ℚ) :
    last + interval ≤ requestStartTime now last interval := by
  unfold requestStartTime
  split <;> linarith

lemma requestStartTime_eq_of_lt {now last interval : ℚ}
    (h : now - last < interval) :
    requestStartTime now last interval = last + interval := by
  unfold requestStartTime
  rw [if_pos h]
  ring

/-- C5: whenever a fetch is admitted past the daily-quota check, the
instant `t` at which its first HTTP attempt is issued satisfies
`t ≥ last_call + 60/per_minute_limit`; and when less than
`60/per_minute_limit` has elapsed since the credential's last recorded
call, the fetch suspends until exactly that interval has elapsed
(`t = last_call + 60/per_minute_limit`). -/
theorem c5_pacing_interval (cfg : Config) {α : Type} (st : FetchState)
    (key : String) (today : Int) (now endt : ℚ) (mr : Nat)
    (script : Nat → UpstreamResponse α)
    (hq : (reset_daily_counter_if_needed st key today).api_key_daily_counts key
          < cfg.rate_limit_per_day) :
    ∃ t, (rate_limited_request cfg st key today now endt mr script).httpStart = some t ∧
      st.api_key_timers key + 60 / cfg.rate_limit_per_minute ≤ t ∧
      (now - st.api_key_timers key < 60 / cfg.rate_limit_per_minute →
        t = st.api_key_timers key + 60 / cfg.rate_limit_per_minute) := by
  simp only [rate_limited_request]
  rw [if_neg (Nat.not_le.mpr hq), reset_timers_eq]
  rcases runLoop cfg mr script with ⟨b, ws, n⟩ | ⟨e, ws, n⟩ | ⟨ws⟩ <;>
    exact ⟨requestStartTime now (st.api_key_timers key) (60 / cfg.rate_limit_per_minute),
      rfl, requestStartTime_ge _ _ _, fun h => requestStartTime_eq_of_lt h⟩

/-- Witness for C5: last call at time 0, per-minute limit 5, call arriving
at time 2 is paced to start at time 12 = 0 + 60/5. -/
theorem c5_pacing_interval_witness :
    ∃ t, (rate_limited_request ⟨5, 250, 60⟩ ⟨fun _ => 0, fun _ => 0, fun _ => some 0⟩
        "k" 0 2 13 3 (successScript (0 : Nat))).httpStart = some t ∧
      (0 : ℚ) + 60 / 5 ≤ t ∧
      ((2 : ℚ) - 0 < 60 / 5 → t = (0 : ℚ) + 60 / 5) :=
  c5_pacing_interval ⟨5, 250, 60⟩ ⟨fun _ => 0, fun _ => 0, fun _ => some 0⟩
    "k" 0 2 13 3 (successScript (0 : Nat)) (by decide)

/-- C9: a call whose result is not a success leaves the credential's
quota state exactly as the lazy daily reset left it — the daily count and
the last-call timer are untouched by quota rejections and by classified
failures after retries; and on a successful call the timer is set to the
success instant and the count to the reset-adjusted count plus one. -/
theorem c9_failure_frame (cfg : Config) {α : Type} (st : FetchState)
    (key : String) (today : Int) (now endt : ℚ) (mr : Nat)
    (script : Nat → UpstreamResponse α) :
    (¬ ((rate_limited_request cfg st key today now endt mr script).result.isOk = true) →
      (rate_limited_request cfg st key today now endt mr script).state =
        reset_daily_counter_if_needed st key today) ∧
    (∀ (b : α) (ws : List ℚ) (n : Nat),
      (rate_limited_request cfg st key today now endt mr script).result = .ok b ws n →
      (rate_limited_request cfg st key today now endt mr script).state.api_key_timers key = endt ∧
      (rate_limited_request cfg st key today now endt mr script).state.api_key_daily_counts key =
        (reset_daily_counter_if_needed st key today).api_key_daily_counts key + 1) := by
  simp only [rate_limited_request]
  by_cases hq : cfg.rate_limit_per_day ≤
      (reset_daily_counter_if_needed st key today).api_key_daily_counts key
  · rw [if_pos hq]
    exact ⟨fun _ => rfl, fun b ws n h => by simp [RunResult.isOk] at h⟩
  · rw [if_neg hq]
    rcases runLoop cfg mr script with ⟨b, ws, n⟩ | ⟨e, ws, n⟩ | ⟨ws⟩
    · refine ⟨fun h => absurd rfl h, fun b' ws' n' _ => ?_⟩
      dsimp only
      rw [Function.update_same, Function.update_same]
      exact ⟨rfl, rfl⟩
    · exact ⟨fun _ => rfl, fun b' ws' n' h => by simp [RunResult.isOk] at h⟩
    · exact ⟨fun _ => rfl, fun b' ws' n' h => by simp [RunResult.isOk] at h⟩

/-- Witness for C9: a concrete 401 failure leaves the state exactly as
the daily reset produced it. -/
theorem c9_failure_frame_witness :
    (rate_limited_request ⟨5, 250, 60⟩ initialState "k9" 0 0 0 3
        (fun _ => UpstreamResponse.http 401 (0 : Nat))).state =
      reset_daily_counter_if_needed initialState "k9" 0 :=
  (c9_failure_frame ⟨5, 250, 60⟩ initialState "k9" 0 0 0 3
    (fun _ => UpstreamResponse.http 401 (0 : Nat))).1 (by decide)

/-- Counterexample for C6 as stated: for a profile with
`sharesOutstanding = 0, price = 150, mktCap = 3000000000` the in-profile
derivation populates `sharesOutstanding = 20000000`, so neither price nor
shares is still missing afterwards, and the market cap is nonzero — yet
both the supplementary quote fetch and the supplementary key-metrics
fetch are still issued, because the issuance conditions (lines 234 and
249) test the local variables read at entry, never refreshed. -/
theorem c6_counterexample_fallback_order :
    (validate_and_fix_market_cap
      { sharesOutstanding := 0, mktCap := 3000000000, price := 150,
        companyName := "ACME" } none none).profile.sharesOutstanding = 20000000 ∧
    (validate_and_fix_market_cap
      { sharesOutstanding := 0, mktCap := 3000000000, price := 150,
        companyName := "ACME" } none none).profile.price = 150 ∧
    (validate_and_fix_market_cap
      { sharesOutstanding := 0, mktCap := 3000000000, price := 150,
        companyName := "ACME" } none none).profile.mktCap = 3000000000 ∧
    (validate_and_fix_market_cap
      { sharesOutstanding := 0, mktCap := 3000000000, price := 150,
        companyName := "ACME" } none none).quoteFetchIssued = true ∧
    (validate_and_fix_market_cap
      { sharesOutstanding := 0, mktCap := 3000000000, price := 150,
        companyName := "ACME" } none none).metricsFetchIssued = true := by
  norm_num [validate_and_fix_market_cap, pyAbs]

/-- C6 (amended): the supplementary quote fetch is issued exactly when
the profile's sharesOutstanding or price, as read at entry, is zero, and
the supplementary key-metrics fetch exactly when the sharesOutstanding or
market cap read at entry is zero — the conditions test the entry values,
not the values left by the earlier derivation steps; when a supplementary
fetch is not issued, the backfill flag it would set is left unchanged. -/
theorem c6_fallback_issuance (p : Profile) (quote : Option QuoteData)
    (metrics : Option MetricsData) :
    ((validate_and_fix_market_cap p quote metrics).quoteFetchIssued = true ↔
      (p.sharesOutstanding = 0 ∨ p.price = 0)) ∧
    ((validate_and_fix_market_cap p quote metrics).metricsFetchIssued = true ↔
      (p.sharesOutstanding = 0 ∨ p.mktCap = 0)) ∧
    (¬ (p.sharesOutstanding = 0 ∨ p.price = 0) →
      (validate_and_fix_market_cap p quote metrics).profile.price_from_quote =
        p.price_from_quote) ∧
    (¬ (p.sharesOutstanding = 0 ∨ p.mktCap = 0) →
      (validate_and_fix_market_cap p quote metrics).profile.mkt_cap_from_metrics =
        p.mkt_cap_from_metrics) := by
  refine ⟨by simp [validate_and_fix_market_cap], by simp [validate_and_fix_market_cap],
    fun h => ?_, fun h => ?_⟩
  · simp only [validate_and_fix_market_cap, if_neg h]
    repeat' split
    all_goals rfl
  · simp only [validate_and_fix_market_cap, if_neg h]
    repeat' split
    all_goals rfl

/-- Witness for the amended C6: a fully-populated, consistent profile
issues neither supplementary fetch and keeps both backfill flags. -/
theorem c6_fallback_issuance_witness :
    ((validate_and_fix_market_cap
        { sharesOutstanding := 10, mktCap := 1000, price := 100,
          companyName := "ACME" } none none).quoteFetchIssued = true ↔
      ((10 : ℚ) = 0 ∨ (100 : ℚ) = 0)) ∧
    (validate_and_fix_market_cap
        { sharesOutstanding := 10, mktCap := 1000, price := 100,
          companyName := "ACME" } none none).profile.price_from_quote = false ∧
    (validate_and_fix_market_cap
        { sharesOutstanding := 10, mktCap := 1000, price := 100,
          companyName := "ACME" } none none).profile.mkt_cap_from_metrics = false :=
  ⟨(c6_fallback_issuance
      { sharesOutstanding := 10, mktCap := 1000, price := 100, companyName := "ACME" }
      none none).1,
   (c6_fallback_issuance
      { sharesOutstanding := 10, mktCap := 1000, price := 100, companyName := "ACME" }
      none none).2.2.1 (by norm_num),
   (c6_fallback_issuance
      { sharesOutstanding := 10, mktCap := 1000, price := 100, companyName := "ACME" }
      none none).2.2.2 (by norm_num)⟩

/-- C7: for a profile with positive price, positive shares outstanding
and positive reported market cap whose reported market cap deviates from
price × sharesOutstanding by more than 5% (deviation measured as the code
does, relative to the reported value), reconciliation replaces the market
cap with the computed product and sets `mkt_cap_calculated`. -/
theorem c7_market_cap_discrepancy (p : Profile) (quote : Option QuoteData)
    (metrics : Option MetricsData)
    (hp : 0 < p.price) (hs : 0 < p.sharesOutstanding) (hm : 0 < p.mktCap)
    (hdev : 5 < pyAbs (p.mktCap - p.price * p.sharesOutstanding) / p.mktCap * 100) :
    (validate_and_fix_market_cap p quote metrics).profile.mktCap =
      p.price * p.sharesOutstanding ∧
    (validate_and_fix_market_cap p quote metrics).profile.mkt_cap_calculated = true := by
  have h1 : ¬ (p.sharesOutstanding = 0 ∧ p.price > 0 ∧ p.mktCap > 0) := by
    rintro ⟨h, -, -⟩
    exact absurd h (ne_of_gt hs)
  have hq : ¬ (p.sharesOutstanding = 0 ∨ p.price = 0) := by
    rintro (h | h)
    · exact absurd h (ne_of_gt hs)
    · exact absurd h (ne_of_gt hp)
  have hmets : ¬ (p.sharesOutstanding = 0 ∨ p.mktCap = 0) := by
    rintro (h | h)
    · exact absurd h (ne_of_gt hs)
    · exact absurd h (ne_of_gt hm)
  have key : (validate_and_fix_market_cap p quote metrics).profile =
      { p with mktCap := p.price * p.sharesOutstanding, mkt_cap_calculated := true } := by
    simp only [validate_and_fix_market_cap]
    rw [if_neg h1, if_pos (And.intro hs hp), if_pos hm, if_pos hdev, if_neg hq, if_neg hmets]
  rw [key]
  exact ⟨rfl, rfl⟩

/-- Witness for C7: `price=100, sharesOutstanding=1000000,
mktCap=150000000` gives a 33% discrepancy, so the corrected market cap is
`100000000` with `mkt_cap_calculated = true`. -/
theorem c7_market_cap_discrepancy_witness :
    (validate_and_fix_market_cap
      { sharesOutstanding := 1000000, mktCap := 150000000, price := 100,
        companyName := "ACME" } none none).profile.mktCap = 100000000 ∧
    (validate_and_fix_market_cap
      { sharesOutstanding := 1000000, mktCap := 150000000, price := 100,
        companyName := "ACME" } none none).profile.mkt_cap_calculated = true :=
  ⟨(c7_market_cap_discrepancy
      { sharesOutstanding := 1000000, mktCap := 150000000, price := 100,
        companyName := "ACME" } none none (by norm_num) (by norm_num) (by norm_num)
      (by norm_num [pyAbs])).1.trans (by norm_num),
   (c7_market_cap_discrepancy
      { sharesOutstanding := 1000000, mktCap := 150000000, price := 100,
        companyName := "ACME" } none none (by norm_num) (by norm_num) (by norm_num)
      (by norm_num [pyAbs])).2⟩

/-- C8: a fetched profile is tagged `fresh` exactly when both critical
fields of the returned profile (market cap and company name) are
non-empty, and `fallback` otherwise; a fetched metrics payload head is
tagged `fresh` exactly when its market cap and revenue-per-share are
non-empty, and `fallback` otherwise. -/
theorem c8_freshness_tagging (p : Profile) (rest : List Profile)
    (quote : Option QuoteData) (metrics : Option MetricsData)
    (m0 : Metrics) (rest2 : List Metrics) :
    (((get_company_profile (.list (p :: rest)) quote metrics).profile_freshness = "fresh" ↔
        ((get_company_profile (.list (p :: rest)) quote metrics).mktCap ≠ 0 ∧
         (get_company_profile (.list (p :: rest)) quote metrics).companyName ≠ "")) ∧
     ((get_company_profile (.list (p :: rest)) quote metrics).profile_freshness = "fallback" ↔
        ¬ ((get_company_profile (.list (p :: rest)) quote metrics).mktCap ≠ 0 ∧
           (get_company_profile (.list (p :: rest)) quote metrics).companyName ≠ ""))) ∧
    ∃ m1 t, get_key_metrics (.list (m0 :: rest2)) = m1 :: t ∧
      ((m1.metrics_freshness = "fresh" ↔ (m1.marketCap ≠ 0 ∧ m1.revenuePerShare ≠ 0)) ∧
       (m1.metrics_freshness = "fallback" ↔
         ¬ (m1.marketCap ≠ 0 ∧ m1.revenuePerShare ≠ 0))) := by
  constructor
  · simp only [get_company_profile]
    by_cases h : (validate_and_fix_market_cap p quote metrics).profile.mktCap = 0 ∨
        (validate_and_fix_market_cap p quote metrics).profile.companyName = ""
    · rw [if_pos h]
      simp
      all_goals tauto
    · rw [if_neg h]
      push_neg at h
      simp
      all_goals tauto
  · simp only [get_key_metrics]
    by_cases h : m0.marketCap = 0 ∨ m0.revenuePerShare = 0
    · rw [if_pos h]
      refine ⟨_, _, rfl, ?_⟩
      simp
      all_goals tauto
    · rw [if_neg h]
      push_neg at h
      refine ⟨_, _, rfl, ?_⟩
      simp
      all_goals tauto

/-- C10: on a 2xx response whose parsed body is an empty list or not a
list at all, `get_company_profile` returns (never raises) a fallback
profile tagged `fallback`, and `get_key_metrics` returns the one-element
fallback list tagged `fallback`. -/
theorem c10_empty_body_fallback (quote : Option QuoteData)
    (metrics : Option MetricsData) (d : ApiData Profile) (d2 : ApiData Metrics)
    (h1 : d = .list [] ∨ d = .other) (h2 : d2 = .list [] ∨ d2 = .other) :
    (get_company_profile d quote metrics).profile_freshness = "fallback" ∧
    get_key_metrics d2 = [{ metrics_freshness := "fallback" }] := by
  rcases h1 with rfl | rfl <;> rcases h2 with rfl | rfl <;> exact ⟨rfl, rfl⟩

/-- Witness for C10 at concrete non-list / empty-list bodies. -/
theorem c10_empty_body_fallback_witness :
    (get_company_profile .other none none).profile_freshness = "fallback" ∧
    get_key_metrics (.list ([] : List Metrics)) = [{ metrics_freshness := "fallback" }] :=
  c10_empty_body_fallback none none .other (.list []) (Or.inr rfl) (Or.inl rfl)
